import Mathlib

/-!
A shallow embedding of the schema-inference code of the notebook
`Solutions.ipynb` (functions `unify_datatype` and `infer_schema_nt`),
together with theorems settling the specification claims about it.

Modelling conventions:
* A Python value observed in a column is a variant of `PyVal`.  The code only
  inspects a value's runtime type (`isinstance`), the absolute value of
  integers, and the canonical string form `str(v)` of `Decimal` values, so
  floats and fractions are carried opaquely, decimals by their canonical
  string.
* Raised Python exceptions are modelled by `Except.error`; the distinct
  exception classes that can actually occur are `ValueError` (with its
  message), `IndexError` (from `v[0]` on an empty string and from `row[n]`
  past the end of a tuple) and `TypeError`.
* `int.bit_length` of a nonnegative integer is `Nat.size`.
* The float expression `int(1 + log10(2**size))` is modelled by the exact
  value `1 + Nat.log 10 (2 ^ size)` (`int` truncation of `1 + log10` of a
  power of two, i.e. one plus the floor of the base-10 logarithm).
-/

namespace SchemaInfer

/-- A Python value as the column unifier observes it: a `float`, an `int`
(arbitrary precision), a `decimal.Decimal` carried by its canonical string
form `str(v)`, a `str`, or a `fractions.Fraction`. -/
inductive PyVal where
  | pfloat (lit : String)
  | pint (n : Int)
  | pdec (s : String)
  | pstr (s : String)
  | pfrac (num den : Int)
deriving DecidableEq

/-- The Python exceptions the embedded code can raise. -/
inductive PyError where
  | valueError (msg : String)
  | indexError
  | typeError
deriving DecidableEq

/-- `isinstance(v, float)`. -/
def isFloat : PyVal → Bool
  | .pfloat _ => true
  | _ => false

/-- `isinstance(v, int)`. -/
def isInt : PyVal → Bool
  | .pint _ => true
  | _ => false

/-- `isinstance(v, Decimal)`. -/
def isDecimal : PyVal → Bool
  | .pdec _ => true
  | _ => false

/-- `isinstance(v, Fraction)`. -/
def isFraction : PyVal → Bool
  | .pfrac _ _ => true
  | _ => false

/-- Python's `int.bit_length()` on a nonnegative integer: the number of
binary digits, `0` for `0`. -/
def bit_length (n : Nat) : Nat := Nat.size n

/-- `abs(v)` for the integer branch (only applied to `pint` values there). -/
def pyAbs : PyVal → Nat
  | .pint n => n.natAbs
  | _ => 0

/-- `max(abs(v) for v in vals)`.  Python's `max` needs a nonempty sequence;
the integer branch is only reached with a nonempty `vals`, where folding
from `0` agrees because every `abs` is nonnegative. -/
def maxAbs (vals : List PyVal) : Nat :=
  vals.foldl (fun a v => max a (pyAbs v)) 0

/-- The integer-branch type label of `unify_datatype`:
`size <= 16 / 32 / 64` select the fixed-width integer types, and the
`DECIMAL` fallback prints `int(1 + log10(2**size))` digits. -/
def intTypeLabel (size : Nat) : String :=
  if size ≤ 16 then "SMALLINT"
  else if size ≤ 32 then "INTEGER"
  else if size ≤ 64 then "BIGINT"
  else "DECIMAL(" ++ toString (1 + Nat.log 10 (2 ^ size)) ++ ")"

/-- Python's `str.find` on a list of characters: first index of `c`,
or `-1` when absent (auxiliary: optional index). -/
def pyFindAux (c : Char) : List Char → Option Nat
  | [] => none
  | a :: rest => if a = c then some 0 else (pyFindAux c rest).map (· + 1)

/-- Python's `str.find(c)`: first index of `c`, `-1` when absent. -/
def pyFind (l : List Char) (c : Char) : Int :=
  match pyFindAux c l with
  | some i => (i : Int)
  | none => -1

/-- One iteration of the decimal-branch loop of `unify_datatype`:
`to_right = max(to_right, v_str[::-1].find('.'))` and
`to_left = max(to_left, v_str.find('.'))` (the accumulator is
`(to_right, to_left)`).  The branch guard guarantees every value is a
`Decimal`; other variants leave the accumulator unchanged. -/
def decScanStep (acc : Int × Int) (v : PyVal) : Int × Int :=
  match v with
  | .pdec s => (max acc.1 (pyFind s.data.reverse '.'), max acc.2 (pyFind s.data '.'))
  | _ => acc

/-- The decimal-branch loop with its initial values `to_right = 0`,
`to_left = 1`. -/
def decScan (vals : List PyVal) : Int × Int :=
  vals.foldl decScanStep (0, 1)

/-- The decimal-branch type label: after the scan, `to_right += 1` and the
result is `DECIMAL(to_left + to_right, to_right)`. -/
def decTypeLabel (vals : List PyVal) : String :=
  "DECIMAL(" ++ toString ((decScan vals).2 + ((decScan vals).1 + 1)) ++ ", " ++
    toString ((decScan vals).1 + 1) ++ ")"

/-- The generator `all(isinstance(v, str) and v[0] == '$' for v in vals)`:
it short-circuits at the first value that is not a `$`-prefixed string, and
`v[0]` raises `IndexError` when an empty string is reached. -/
def currencyCheck : List PyVal → Except PyError Bool
  | [] => .ok true
  | v :: rest =>
    match v with
    | .pstr s =>
      match s.data with
      | [] => .error .indexError
      | c :: _ => if c = '$' then currencyCheck rest else .ok false
    | _ => .ok false

/-- `unify_datatype(vals)` from the notebook: the first matching rule wins.
The only possible exception is the `IndexError` of the currency check. -/
def unify_datatype (vals : List PyVal) : Except PyError String :=
  if vals.all isFloat then .ok "DOUBLE PRECISION"
  else if vals.all isInt then .ok (intTypeLabel (bit_length (maxAbs vals)))
  else if vals.all isDecimal then .ok (decTypeLabel vals)
  else
    Except.bind (currencyCheck vals) (fun isCurrency =>
      if isCurrency then .ok "DECIMAL(10, 2)"
      else if vals.all isFraction then .ok "DOUBLE PRECISION"
      else .ok "TEXT")

/-- A namedtuple instance: its class name, its `_fields`, and its values. -/
structure PyRecord where
  clsName : String
  fields : List String
  vals : List PyVal
deriving DecidableEq

/-- An element of the input iterable: a namedtuple, a plain tuple (no
`_fields` attribute), or a non-tuple object. -/
inductive PyObj where
  | nt (r : PyRecord)
  | tup (vs : List PyVal) (clsName : String)
  | obj (clsName : String)
deriving DecidableEq

/-- `isinstance(t, tuple) and hasattr(t, '_fields')`. -/
def isNamedTuple : PyObj → Bool
  | .nt _ => true
  | _ => false

/-- `o.__class__.__name__`. -/
def clsNameOf : PyObj → String
  | .nt r => r.clsName
  | .tup _ c => c
  | .obj c => c

/-- `o._fields`.  On a non-namedtuple this would be an `AttributeError`;
the inferrer only reads it after every element passed the namedtuple
check, so the default is unreachable there. -/
def fieldsOf : PyObj → List String
  | .nt r => r.fields
  | _ => []

/-- `row[n]`: positional access, `IndexError` past the end, `TypeError`
on a non-indexable object. -/
def getItem : PyObj → Nat → Except PyError PyVal
  | .nt r, n =>
    match r.vals.get? n with
    | some v => .ok v
    | none => .error .indexError
  | .tup vs _, n =>
    match vs.get? n with
    | some v => .ok v
    | none => .error .indexError
  | .obj _, _ => .error .typeError

/-- The comprehension `[row[n] for row in dataset]`: rows in order, the
first failing access raises. -/
def gatherColumn (dataset : List PyObj) (n : Nat) : Except PyError (List PyVal) :=
  match dataset with
  | [] => .ok []
  | row :: rest =>
    Except.bind (getItem row n) (fun v =>
      Except.bind (gatherColumn rest n) (fun vs => .ok (v :: vs)))

/-- The `for n, col in enumerate(fields)` loop of `infer_schema_nt`: gather
each column, unify it, raise `ValueError` on a falsy (empty) label, and
record `(col, label)` in declaration order (the insertion order of the
`types` dict). -/
def buildTypes (dataset : List PyObj) : Nat → List String → Except PyError (List (String × String))
  | _, [] => .ok []
  | n, col :: rest =>
    Except.bind (gatherColumn dataset n) (fun colvals =>
      Except.bind (unify_datatype colvals) (fun coldef =>
        if coldef = "" then
          .error (.valueError ("Could not find unified datatype for column " ++ col))
        else
          Except.bind (buildTypes dataset (n + 1) rest) (fun ts =>
            .ok ((col, coldef) :: ts))))

/-- Python's `str.rstrip(',')`: remove every trailing comma. -/
def rstripComma (s : String) : String :=
  String.mk ((s.data.reverse.dropWhile (fun c => c == ',')).reverse)

/-- `sql[-1] = sql[-1].rstrip(',')`: strip trailing commas from the last
line.  `sql` always starts with the `CREATE TABLE` line, so the empty case
is unreachable. -/
def stripLastComma : List String → List String
  | [] => []
  | [l] => [rstripComma l]
  | l :: rest => l :: stripLastComma rest

/-- The output assembly of `infer_schema_nt`: the `CREATE TABLE` line, one
line `    col typ,` per column, trailing commas stripped from the last
line, a final `);`, joined with newlines. -/
def renderSQL (tablename : String) (types : List (String × String)) : String :=
  let sql := ("CREATE TABLE " ++ tablename ++ " (") ::
    types.map (fun p => "    " ++ p.1 ++ " " ++ p.2 ++ ",")
  String.intercalate "\n" (stripLastComma sql ++ [");"])

/-- `infer_schema_nt(dataset)` from the notebook: the three validations in
order, then per-column unification, then the SQL assembly.  `dataset[0]` on
an empty list would be an `IndexError`; it is unreachable behind the
length check. -/
def infer_schema_nt (dataset : List PyObj) : Except PyError String :=
  if dataset.length < 2 then
    .error (.valueError "At least two rows are required for inference")
  else if ! dataset.all isNamedTuple then
    .error (.valueError "The dataset does not appear to be exclusively namedtuples")
  else if (dataset.map clsNameOf).dedup.length ≠ 1 then
    .error (.valueError "The dataset has namedtuples of varying types")
  else
    match dataset with
    | [] => .error .indexError
    | first :: rest =>
      Except.bind (buildTypes (first :: rest) 0 (fieldsOf first)) (fun types =>
        .ok (renderSQL (clsNameOf first) types))

/-- Whether an error is one of the four defined validation failures of the
specification (all of them are `ValueError`s). -/
def isValidationError : PyError → Bool
  | .valueError _ => true
  | _ => false

/-- Modelled from the spec: the precision the claim attributes to the
integer `DECIMAL` fallback, `ceil(log10(2^bitlength)) + 1`; the
natural-number ceiling of the base-10 logarithm is `Nat.clog 10`. -/
def specClaimedIntPrecision (b : Nat) : Nat := Nat.clog 10 (2 ^ b) + 1

/-- Modelled from the spec: the digit count left of the decimal point in a
value's canonical string form. -/
def specDigitsLeft (l : List Char) : Nat :=
  (l.takeWhile (fun c => c != '.')).countP Char.isDigit

/-- Modelled from the spec: the digit count right of the decimal point in a
value's canonical string form. -/
def specDigitsRight (l : List Char) : Nat :=
  ((l.dropWhile (fun c => c != '.')).drop 1).countP Char.isDigit

/-- Modelled from the spec: the maximum digit count left of the decimal
point over the decimal values of a column. -/
def specMaxDigitsLeft : List PyVal → Nat
  | [] => 0
  | v :: rest =>
    match v with
    | .pdec s => max (specDigitsLeft s.data) (specMaxDigitsLeft rest)
    | _ => specMaxDigitsLeft rest

/-- Modelled from the spec: the maximum digit count right of the decimal
point over the decimal values of a column. -/
def specMaxDigitsRight : List PyVal → Nat
  | [] => 0
  | v :: rest =>
    match v with
    | .pdec s => max (specDigitsRight s.data) (specMaxDigitsRight rest)
    | _ => specMaxDigitsRight rest

/-- A decimal value whose canonical string has the form
`digits . digits` with at least one digit before the point and no sign:
the shape on which the claimed digit-count reading of the scan is exact. -/
def canonicalDecimalString (v : PyVal) : Bool :=
  match v with
  | .pdec s =>
    !(s.data.takeWhile (fun c => c != '.')).isEmpty &&
      (s.data.takeWhile (fun c => c != '.')).all Char.isDigit &&
      ((s.data.dropWhile (fun c => c != '.')).head? == some '.') &&
      ((s.data.dropWhile (fun c => c != '.')).drop 1).all Char.isDigit
  | _ => false

/-- A value whose first rule match in the currency check succeeds:
a nonempty string starting with the dollar marker. -/
def isDollarString : PyVal → Bool
  | .pstr s =>
    match s.data with
    | c :: _ => c == '$'
    | [] => false
  | _ => false

/-- Modelled from the spec: the column lines of the output grammar the
format claim describes, one `    col typ,` line per column with the
trailing comma absent from the final column line. -/
def specColumnLines (tys : List (String × String)) : List String :=
  tys.dropLast.map (fun p => "    " ++ p.1 ++ " " ++ p.2 ++ ",") ++
    (tys.getLast?.map (fun p => "    " ++ p.1 ++ " " ++ p.2)).toList

/-- Modelled from the spec: the full output grammar of the format claim:
the `CREATE TABLE <name> (` opening line, the column lines, and the `);`
closing line, joined by newlines. -/
def specRenderedOutput (name : String) (tys : List (String × String)) : String :=
  String.intercalate "\n"
    ((("CREATE TABLE " ++ name ++ " (") :: specColumnLines tys) ++ [");"])

/-- The sample `data1` of the notebook: three `Numbers1` records shown in
the first output cell. -/
def data1 : List PyObj :=
  [ .nt ⟨"Numbers1", ["a", "b", "c", "d", "e"],
      [.pfloat "1.23", .pdec "1.15573", .pint 1000000000000, .pint 2, .pfrac 22 7]⟩,
    .nt ⟨"Numbers1", ["a", "b", "c", "d", "e"],
      [.pfloat "4.56", .pdec "1.155727349790921717935726", .pint (-22), .pint 5, .pfrac 1 3]⟩,
    .nt ⟨"Numbers1", ["a", "b", "c", "d", "e"],
      [.pfloat "7.89", .pdec "1.0", .pint 56, .pint 9, .pfrac 5 1]⟩ ]

/-! ### Helper lemmas -/

lemma specClaimedIntPrecision_eq (b : Nat) :
    specClaimedIntPrecision b = Nat.clog 10 (2 ^ b) + 1 := rfl

lemma bit_length_eq_succ {n : Nat} (k : Nat) (h1 : 2 ^ k ≤ n) (h2 : n < 2 ^ (k + 1)) :
    bit_length n = k + 1 := by
  unfold bit_length
  exact le_antisymm (Nat.size_le.mpr h2) (Nat.lt_size.mpr h1)

lemma all_eq_false_of_mem {α : Type} {p : α → Bool} {v : α} {l : List α}
    (hv : v ∈ l) (h : p v = false) : l.all p = false :=
  List.all_eq_false.mpr ⟨v, hv, by simp [h]⟩

lemma unify_int_branch {vals : List PyVal} (hne : vals ≠ []) (hint : vals.all isInt = true) :
    unify_datatype vals = Except.ok (intTypeLabel (bit_length (maxAbs vals))) := by
  have hfl : vals.all isFloat = false := by
    cases vals with
    | nil => exact absurd rfl hne
    | cons v rest =>
      simp only [List.all_cons, Bool.and_eq_true] at hint
      cases v <;> simp_all [isInt, isFloat]
  unfold unify_datatype
  rw [hfl, hint]
  simp

lemma intTypeLabel_smallint {size : Nat} (h : size ≤ 16) : intTypeLabel size = "SMALLINT" := by
  unfold intTypeLabel
  rw [if_pos h]

lemma intTypeLabel_integer {size : Nat} (h1 : 17 ≤ size) (h2 : size ≤ 32) :
    intTypeLabel size = "INTEGER" := by
  unfold intTypeLabel
  rw [if_neg (by omega), if_pos h2]

lemma intTypeLabel_bigint {size : Nat} (h1 : 33 ≤ size) (h2 : size ≤ 64) :
    intTypeLabel size = "BIGINT" := by
  unfold intTypeLabel
  rw [if_neg (by omega), if_neg (by omega), if_pos h2]

lemma intTypeLabel_decimal {size : Nat} (h : 65 ≤ size) :
    intTypeLabel size = "DECIMAL(" ++ toString (1 + Nat.log 10 (2 ^ size)) ++ ")" := by
  unfold intTypeLabel
  rw [if_neg (by omega), if_neg (by omega), if_neg (by omega)]

lemma buildTypes_cons_ok {dataset : List PyObj} {n : Nat} {col : String} {rest : List String}
    {cv : List PyVal} {t : String} {ts : List (String × String)}
    (hg : gatherColumn dataset n = Except.ok cv)
    (hu : unify_datatype cv = Except.ok t)
    (ht : ¬ t = "")
    (hrest : buildTypes dataset (n + 1) rest = Except.ok ts) :
    buildTypes dataset n (col :: rest) = Except.ok ((col, t) :: ts) := by
  simp [buildTypes, hg, hu, hrest, Except.bind, ht]

/-! ### C1: integer sizing boundaries -/

/-- C1: for a nonempty all-integer column, with `b` the bit length of the
maximum absolute value, the unifier returns `SMALLINT` for `b ≤ 16`,
`INTEGER` for `17 ≤ b ≤ 32`, `BIGINT` for `33 ≤ b ≤ 64`, and a
parameterized `DECIMAL` type for `65 ≤ b`. -/
theorem C1_integer_sizing (vals : List PyVal) (hne : vals ≠ [])
    (hint : vals.all isInt = true) :
    (bit_length (maxAbs vals) ≤ 16 → unify_datatype vals = Except.ok "SMALLINT") ∧
    (17 ≤ bit_length (maxAbs vals) → bit_length (maxAbs vals) ≤ 32 →
      unify_datatype vals = Except.ok "INTEGER") ∧
    (33 ≤ bit_length (maxAbs vals) → bit_length (maxAbs vals) ≤ 64 →
      unify_datatype vals = Except.ok "BIGINT") ∧
    (65 ≤ bit_length (maxAbs vals) →
      ∃ p : Nat, unify_datatype vals = Except.ok ("DECIMAL(" ++ toString p ++ ")")) := by
  have hu := unify_int_branch hne hint
  refine ⟨fun h => ?_, fun h1 h2 => ?_, fun h1 h2 => ?_, fun h => ?_⟩
  · rw [hu, intTypeLabel_smallint h]
  · rw [hu, intTypeLabel_integer h1 h2]
  · rw [hu, intTypeLabel_bigint h1 h2]
  · exact ⟨1 + Nat.log 10 (2 ^ bit_length (maxAbs vals)), by rw [hu, intTypeLabel_decimal h]⟩

/-- Witness for C1 at the 16-bit boundary: `40000` needs exactly 16 bits. -/
theorem C1_integer_sizing_witness :
    unify_datatype [PyVal.pint 40000] = Except.ok "SMALLINT" := by
  have hb : bit_length (maxAbs [PyVal.pint 40000]) = 16 := by
    rw [show maxAbs [PyVal.pint 40000] = 40000 from rfl]
    exact bit_length_eq_succ 15 (by decide) (by decide)
  exact (C1_integer_sizing [PyVal.pint 40000] (by simp) rfl).1 (by omega)

/-! ### C2: the DECIMAL precision of the oversized-integer branch -/

/-- C2 counterexample: at bit length 65 the code prints
`DECIMAL(20)` (`int(1 + log10(2**65)) = 20`) while the claimed formula
`ceil(log10(2^65)) + 1` gives `21`. -/
theorem C2_counterexample :
    unify_datatype [PyVal.pint 18446744073709551616, PyVal.pint 18446744073709551616] =
      Except.ok "DECIMAL(20)" ∧
    bit_length (maxAbs [PyVal.pint 18446744073709551616, PyVal.pint 18446744073709551616]) = 65 ∧
    specClaimedIntPrecision 65 = 21 ∧
    ("DECIMAL(20)" : String) ≠ "DECIMAL(21)" := by
  have hm : maxAbs [PyVal.pint 18446744073709551616, PyVal.pint 18446744073709551616] =
      18446744073709551616 := rfl
  have hb : bit_length (maxAbs [PyVal.pint 18446744073709551616,
      PyVal.pint 18446744073709551616]) = 65 := by
    rw [hm]
    exact bit_length_eq_succ 64 (by decide) (by decide)
  have hlog : Nat.log 10 (2 ^ 65) = 19 :=
    Nat.log_eq_of_pow_le_of_lt_pow (by decide) (by decide)
  have hclog : Nat.clog 10 (2 ^ 65) = 20 := by
    have h1 : Nat.clog 10 (2 ^ 65) ≤ 20 := (Nat.le_pow_iff_clog_le (by norm_num)).mp (by decide)
    have h2 : 19 < Nat.clog 10 (2 ^ 65) := (Nat.pow_lt_iff_lt_clog (by norm_num)).mp (by decide)
    omega
  refine ⟨?_, hb, ?_, by decide⟩
  · have hu := @unify_int_branch [PyVal.pint 18446744073709551616,
      PyVal.pint 18446744073709551616] (by simp) rfl
    rw [hu, hb, intTypeLabel_decimal (by omega), hlog]
    rfl
  · rw [specClaimedIntPrecision_eq, hclog]

/-- C2 amended: for a nonempty all-integer column whose maximum absolute
value has bit length `b ≥ 65`, the unifier returns `DECIMAL(p)` with
`p = 1 + floor(log10(2^b))` (the exact value of `int(1 + log10(2**b))`),
one less than the claimed `ceil(log10(2^b)) + 1`. -/
theorem C2_int_decimal_precision (vals : List PyVal) (hne : vals ≠ [])
    (hint : vals.all isInt = true) (hb : 65 ≤ bit_length (maxAbs vals)) :
    unify_datatype vals =
      Except.ok ("DECIMAL(" ++ toString (1 + Nat.log 10 (2 ^ bit_length (maxAbs vals))) ++ ")") := by
  rw [unify_int_branch hne hint, intTypeLabel_decimal hb]

/-- Witness for C2 at bit length 65 (`2^64`): the emitted type is
`DECIMAL(20)`. -/
theorem C2_int_decimal_precision_witness :
    unify_datatype [PyVal.pint 18446744073709551616] = Except.ok "DECIMAL(20)" := by
  have hb : bit_length (maxAbs [PyVal.pint 18446744073709551616]) = 65 := by
    rw [show maxAbs [PyVal.pint 18446744073709551616] = 18446744073709551616 from rfl]
    exact bit_length_eq_succ 64 (by decide) (by decide)
  have hlog : Nat.log 10 (2 ^ 65) = 19 :=
    Nat.log_eq_of_pow_le_of_lt_pow (by decide) (by decide)
  have h := C2_int_decimal_precision [PyVal.pint 18446744073709551616] (by simp) rfl (by omega)
  rw [h, hb, hlog]
  rfl

/-! ### C5: the concrete Numbers1 scenario -/

lemma buildTypes_data1 :
    buildTypes data1 0 ["a", "b", "c", "d", "e"] =
      Except.ok [("a", "DOUBLE PRECISION"), ("b", "DECIMAL(26, 25)"), ("c", "BIGINT"),
                 ("d", "SMALLINT"), ("e", "DOUBLE PRECISION")] := by
  have hc : unify_datatype [PyVal.pint 1000000000000, PyVal.pint (-22), PyVal.pint 56] =
      Except.ok "BIGINT" := by
    have hb : bit_length (maxAbs [PyVal.pint 1000000000000, PyVal.pint (-22), PyVal.pint 56]) =
        40 := by
      rw [show maxAbs [PyVal.pint 1000000000000, PyVal.pint (-22), PyVal.pint 56] =
        1000000000000 from rfl]
      exact bit_length_eq_succ 39 (by decide) (by decide)
    have hu := @unify_int_branch
      [PyVal.pint 1000000000000, PyVal.pint (-22), PyVal.pint 56] (by simp) rfl
    rw [hu, hb, intTypeLabel_bigint (by omega) (by omega)]
  have hd : unify_datatype [PyVal.pint 2, PyVal.pint 5, PyVal.pint 9] =
      Except.ok "SMALLINT" := by
    have hb : bit_length (maxAbs [PyVal.pint 2, PyVal.pint 5, PyVal.pint 9]) = 4 := by
      rw [show maxAbs [PyVal.pint 2, PyVal.pint 5, PyVal.pint 9] = 9 from rfl]
      exact bit_length_eq_succ 3 (by decide) (by decide)
    have hu := @unify_int_branch
      [PyVal.pint 2, PyVal.pint 5, PyVal.pint 9] (by simp) rfl
    rw [hu, hb, intTypeLabel_smallint (by omega)]
  exact buildTypes_cons_ok rfl rfl (by decide)
    (buildTypes_cons_ok rfl rfl (by decide)
      (buildTypes_cons_ok rfl hc (by decide)
        (buildTypes_cons_ok rfl hd (by decide)
          (buildTypes_cons_ok rfl rfl (by decide) rfl))))

/-- C5: on the three-record `Numbers1` batch of the notebook, the inferrer
emits exactly the documented `CREATE TABLE` statement. -/
theorem C5_concrete_numbers1 :
    infer_schema_nt data1 =
      Except.ok "CREATE TABLE Numbers1 (\n    a DOUBLE PRECISION,\n    b DECIMAL(26, 25),\n    c BIGINT,\n    d SMALLINT,\n    e DOUBLE PRECISION\n);" := by
  calc infer_schema_nt data1
      = Except.bind (buildTypes data1 0 ["a", "b", "c", "d", "e"])
          (fun types => Except.ok (renderSQL "Numbers1" types)) := rfl
    _ = Except.ok (renderSQL "Numbers1"
          [("a", "DOUBLE PRECISION"), ("b", "DECIMAL(26, 25)"), ("c", "BIGINT"),
           ("d", "SMALLINT"), ("e", "DOUBLE PRECISION")]) := by rw [buildTypes_data1]; rfl
    _ = Except.ok "CREATE TABLE Numbers1 (\n    a DOUBLE PRECISION,\n    b DECIMAL(26, 25),\n    c BIGINT,\n    d SMALLINT,\n    e DOUBLE PRECISION\n);" := rfl

/-! ### C7: fewer than two records -/

/-- C7: a batch of fewer than two records fails with the
`InsufficientData` message before anything else happens. -/
theorem C7_insufficient_data (dataset : List PyObj) (h : dataset.length < 2) :
    infer_schema_nt dataset =
      Except.error (PyError.valueError "At least two rows are required for inference") := by
  unfold infer_schema_nt
  rw [if_pos h]

/-- Witness for C7: the spec's single-record scenario. -/
theorem C7_insufficient_data_witness :
    infer_schema_nt [PyObj.nt ⟨"Numbers1", ["a"], [PyVal.pint 1]⟩] =
      Except.error (PyError.valueError "At least two rows are required for inference") :=
  C7_insufficient_data _ (by decide)

/-! ### C8: non-namedtuple elements -/

/-- C8 counterexample: a one-element batch whose only element is not a
tuple fails with the `InsufficientData` message, not the
`NotUniformRecordShape` one, because the length check runs first. -/
theorem C8_counterexample :
    infer_schema_nt [PyObj.obj "X"] =
      Except.error (PyError.valueError "At least two rows are required for inference") ∧
    ("At least two rows are required for inference" : String) ≠
      "The dataset does not appear to be exclusively namedtuples" :=
  ⟨rfl, by decide⟩

/-- C8 amended: a batch of at least two elements, at least one of which is
not a namedtuple, fails with the `NotUniformRecordShape` message. -/
theorem C8_not_uniform_shape (dataset : List PyObj) (hlen : 2 ≤ dataset.length)
    (h : ∃ x ∈ dataset, isNamedTuple x = false) :
    infer_schema_nt dataset =
      Except.error (PyError.valueError
        "The dataset does not appear to be exclusively namedtuples") := by
  have hall : dataset.all isNamedTuple = false := by
    obtain ⟨x, hx, hfx⟩ := h
    exact all_eq_false_of_mem hx hfx
  unfold infer_schema_nt
  rw [if_neg (by omega), hall]
  simp

/-- Witness for C8 at a two-element batch containing a non-tuple. -/
theorem C8_not_uniform_shape_witness :
    infer_schema_nt [PyObj.nt ⟨"T", ["a"], [PyVal.pint 1]⟩, PyObj.obj "X"] =
      Except.error (PyError.valueError
        "The dataset does not appear to be exclusively namedtuples") :=
  C8_not_uniform_shape _ (by decide) ⟨PyObj.obj "X", by simp, rfl⟩

/-! ### C4 and C6: the currency check, the text fallback, and mixed columns -/

lemma paren_shape (s : String) :
    (s ++ ")") ≠ "" ∧ (s ++ ")").data.getLast? ≠ some ',' := by
  constructor
  · intro he
    have hd := congrArg String.data he
    rw [String.data_append] at hd
    simp at hd
  · rw [String.data_append, List.getLast?_append]
    intro h
    rw [show (")".data.getLast?) = some ')' from rfl] at h
    simp [Option.or] at h

lemma unify_ok_shape {vals : List PyVal} {t : String}
    (h : unify_datatype vals = Except.ok t) :
    t ≠ "" ∧ t.data.getLast? ≠ some ',' := by
  unfold unify_datatype at h
  split at h
  · cases h
    exact ⟨by decide, by decide⟩
  · split at h
    · cases h
      unfold intTypeLabel
      split
      · exact ⟨by decide, by decide⟩
      · split
        · exact ⟨by decide, by decide⟩
        · split
          · exact ⟨by decide, by decide⟩
          · exact paren_shape _
    · split at h
      · cases h
        exact paren_shape _
      · rcases hcc : currencyCheck vals with e | b
        · rw [hcc] at h
          simp [Except.bind] at h
        · rw [hcc] at h
          simp only [Except.bind] at h
          split at h
          · cases h
            exact ⟨by decide, by decide⟩
          · split at h
            · cases h
              exact ⟨by decide, by decide⟩
            · cases h
              exact ⟨by decide, by decide⟩

lemma currencyCheck_no_error : ∀ (vals : List PyVal),
    (∀ s, PyVal.pstr s ∈ vals → s ≠ "") →
    ∃ b, currencyCheck vals = Except.ok b := by
  intro vals
  induction vals with
  | nil => exact fun _ => ⟨true, rfl⟩
  | cons v rest ih =>
    intro h
    cases v with
    | pstr s =>
      have hs : s ≠ "" := h s (by simp)
      have hd : s.data ≠ [] := by
        intro he
        apply hs
        have hmk : s = String.mk s.data := rfl
        rw [hmk, he]
      cases hds : s.data with
      | nil => exact absurd hds hd
      | cons c cs =>
        by_cases hc : c = '$'
        · obtain ⟨b, hb⟩ := ih (fun s2 hs2 => h s2 (List.mem_cons_of_mem _ hs2))
          exact ⟨b, by simp [currencyCheck, hds, hc, hb]⟩
        · exact ⟨false, by simp [currencyCheck, hds, hc]⟩
    | pfloat lit => exact ⟨false, rfl⟩
    | pint n => exact ⟨false, rfl⟩
    | pdec s => exact ⟨false, rfl⟩
    | pfrac a b => exact ⟨false, rfl⟩

lemma currencyCheck_false : ∀ (vals : List PyVal),
    (∀ s, PyVal.pstr s ∈ vals → s ≠ "") →
    (∃ v ∈ vals, isDollarString v = false) →
    currencyCheck vals = Except.ok false := by
  intro vals
  induction vals with
  | nil =>
    intro _ hw
    obtain ⟨v, hv, _⟩ := hw
    simp at hv
  | cons v rest ih =>
    intro hns hw
    cases v with
    | pstr s =>
      have hs : s ≠ "" := hns s (by simp)
      have hd : s.data ≠ [] := by
        intro he
        apply hs
        have hmk : s = String.mk s.data := rfl
        rw [hmk, he]
      cases hds : s.data with
      | nil => exact absurd hds hd
      | cons c cs =>
        by_cases hc : c = '$'
        · have hrest : ∃ v ∈ rest, isDollarString v = false := by
            obtain ⟨w, hw1, hw2⟩ := hw
            rcases List.mem_cons.mp hw1 with rfl | hmem
            · exfalso
              simp [isDollarString, hds, hc] at hw2
            · exact ⟨w, hmem, hw2⟩
          have hr := ih (fun s2 hs2 => hns s2 (List.mem_cons_of_mem _ hs2)) hrest
          simp [currencyCheck, hds, hc, hr]
        · simp [currencyCheck, hds, hc]
    | pfloat lit => rfl
    | pint n => rfl
    | pdec s => rfl
    | pfrac a b => rfl

/-- C4 counterexample: a column whose first value is the empty string
reaches `v[0]` in the currency check and raises `IndexError`, so the
unifier does not return a type label there. -/
theorem C4_counterexample :
    unify_datatype [PyVal.pstr "", PyVal.pstr "x"] = Except.error PyError.indexError := rfl

/-- C4 amended: on every sequence of values containing no empty-string
value, the unifier returns a nonempty type label without raising, so the
`UnunifiableColumn` failure of the inferrer is unreachable for such
batches. -/
theorem C4_total_fallback (vals : List PyVal)
    (h : ∀ s, PyVal.pstr s ∈ vals → s ≠ "") :
    ∃ t, unify_datatype vals = Except.ok t ∧ t ≠ "" := by
  obtain ⟨b, hb⟩ := currencyCheck_no_error vals h
  have hex : ∃ t, unify_datatype vals = Except.ok t := by
    unfold unify_datatype
    split
    · exact ⟨_, rfl⟩
    · split
      · exact ⟨_, rfl⟩
      · split
        · exact ⟨_, rfl⟩
        · rw [hb]
          cases b with
          | false =>
            cases hfr : vals.all isFraction with
            | false => exact ⟨"TEXT", by simp [Except.bind, hfr]⟩
            | true => exact ⟨"DOUBLE PRECISION", by simp [Except.bind, hfr]⟩
          | true => exact ⟨"DECIMAL(10, 2)", by simp [Except.bind]⟩
  obtain ⟨t, ht⟩ := hex
  exact ⟨t, ht, (unify_ok_shape ht).1⟩

/-- Witness for C4 on a plain string column. -/
theorem C4_total_fallback_witness :
    ∃ t, unify_datatype [PyVal.pstr "x"] = Except.ok t ∧ t ≠ "" :=
  C4_total_fallback [PyVal.pstr "x"] (by
    intro s hs
    simp at hs
    subst hs
    decide)

/-- C6 counterexample: a column containing a float and an integer, but
whose first value is the empty string, raises `IndexError` instead of
resolving to `TEXT`. -/
theorem C6_counterexample :
    unify_datatype [PyVal.pstr "", PyVal.pfloat "1.0", PyVal.pint 2] =
      Except.error PyError.indexError ∧
    (Except.error PyError.indexError : Except PyError String) ≠ Except.ok "TEXT" :=
  ⟨rfl, by simp⟩

/-- C6 amended: a column containing at least one float and at least one
integer, and no empty-string value, matches no rule and resolves to
`TEXT`. -/
theorem C6_mixed_column_text (vals : List PyVal)
    (hf : ∃ x, PyVal.pfloat x ∈ vals) (hi : ∃ n, PyVal.pint n ∈ vals)
    (hns : ∀ s, PyVal.pstr s ∈ vals → s ≠ "") :
    unify_datatype vals = Except.ok "TEXT" := by
  obtain ⟨x, hx⟩ := hf
  obtain ⟨n, hn⟩ := hi
  have h1 : vals.all isFloat = false := all_eq_false_of_mem hn rfl
  have h2 : vals.all isInt = false := all_eq_false_of_mem hx rfl
  have h3 : vals.all isDecimal = false := all_eq_false_of_mem hx rfl
  have h4 : vals.all isFraction = false := all_eq_false_of_mem hx rfl
  have hcc : currencyCheck vals = Except.ok false :=
    currencyCheck_false vals hns ⟨PyVal.pint n, hn, rfl⟩
  unfold unify_datatype
  rw [h1, h2, h3, hcc]
  simp [Except.bind, h4]

/-- Witness for C6 on a two-value mixed column. -/
theorem C6_mixed_column_text_witness :
    unify_datatype [PyVal.pfloat "1.5", PyVal.pint 7] = Except.ok "TEXT" :=
  C6_mixed_column_text [PyVal.pfloat "1.5", PyVal.pint 7]
    ⟨"1.5", by simp⟩ ⟨7, by simp⟩ (by intro s hs; simp at hs)

/-! ### C3: the decimal digit-count scan -/

lemma char_ne_dot_of_digit {a : Char} (h : Char.isDigit a = true) : a ≠ '.' := by
  intro e
  rw [e] at h
  exact absurd h (by decide)

lemma takeWhile_digits_append {l1 l2 : List Char} (h : ∀ a ∈ l1, Char.isDigit a = true) :
    (l1 ++ '.' :: l2).takeWhile (fun c => c != '.') = l1 := by
  induction l1 with
  | nil => simp [List.takeWhile_cons]
  | cons a rest ih =>
    have ha : a ≠ '.' := char_ne_dot_of_digit (h a (by simp))
    simp [List.takeWhile_cons, ha, ih (fun x hx => h x (by simp [hx]))]

lemma dropWhile_digits_append {l1 l2 : List Char} (h : ∀ a ∈ l1, Char.isDigit a = true) :
    (l1 ++ '.' :: l2).dropWhile (fun c => c != '.') = '.' :: l2 := by
  induction l1 with
  | nil => simp [List.dropWhile_cons]
  | cons a rest ih =>
    have ha : a ≠ '.' := char_ne_dot_of_digit (h a (by simp))
    simp [List.dropWhile_cons, ha, ih (fun x hx => h x (by simp [hx]))]

lemma pyFindAux_prefix_free {c : Char} {l1 l2 : List Char} (h : ∀ a ∈ l1, a ≠ c) :
    pyFindAux c (l1 ++ c :: l2) = some l1.length := by
  induction l1 with
  | nil => simp [pyFindAux]
  | cons a rest ih =>
    simp [pyFindAux, h a (by simp), ih (fun x hx => h x (by simp [hx]))]

lemma pyFind_shape_left {ip fp : List Char} (hip : ∀ a ∈ ip, Char.isDigit a = true) :
    pyFind (ip ++ '.' :: fp) '.' = (ip.length : Int) := by
  unfold pyFind
  rw [pyFindAux_prefix_free (fun a ha => char_ne_dot_of_digit (hip a ha))]

lemma pyFind_shape_right {ip fp : List Char} (hfp : ∀ a ∈ fp, Char.isDigit a = true) :
    pyFind (ip ++ '.' :: fp).reverse '.' = (fp.length : Int) := by
  have hrev : (ip ++ '.' :: fp).reverse = fp.reverse ++ '.' :: ip.reverse := by
    simp
  rw [hrev]
  unfold pyFind
  rw [pyFindAux_prefix_free
    (fun a ha => char_ne_dot_of_digit (hfp a (List.mem_reverse.mp ha)))]
  simp

lemma canonicalDecimalString_spec {v : PyVal} (h : canonicalDecimalString v = true) :
    ∃ ip fp : List Char, v = PyVal.pdec (String.mk (ip ++ '.' :: fp)) ∧ ip ≠ [] ∧
      (∀ a ∈ ip, Char.isDigit a = true) ∧ (∀ a ∈ fp, Char.isDigit a = true) := by
  cases v with
  | pdec s =>
    unfold canonicalDecimalString at h
    simp only [Bool.and_eq_true] at h
    obtain ⟨⟨⟨h1, h2⟩, h3⟩, h4⟩ := h
    have hne : s.data.takeWhile (fun c => c != '.') ≠ [] := by
      simpa using h1
    have hipd : ∀ a ∈ s.data.takeWhile (fun c => c != '.'), Char.isDigit a = true := by
      simpa [List.all_eq_true] using h2
    cases hdw : s.data.dropWhile (fun c => c != '.') with
    | nil =>
      rw [hdw] at h3
      simp at h3
    | cons a t =>
      have ha : a = '.' := by
        rw [hdw] at h3
        simpa using h3
      have hfpd : ∀ x ∈ t, Char.isDigit x = true := by
        rw [hdw] at h4
        simpa [List.all_eq_true] using h4
      have hsplit := (List.takeWhile_append_dropWhile (fun c => c != '.') s.data).symm
      rw [hdw, ha] at hsplit
      exact ⟨s.data.takeWhile (fun c => c != '.'), t,
        congrArg PyVal.pdec ((rfl : s = String.mk s.data).trans (congrArg String.mk hsplit)),
        hne, hipd, hfpd⟩
  | pfloat lit => simp [canonicalDecimalString] at h
  | pint n => simp [canonicalDecimalString] at h
  | pstr s => simp [canonicalDecimalString] at h
  | pfrac a b => simp [canonicalDecimalString] at h

lemma specDigitsLeft_shape {ip fp : List Char} (hip : ∀ a ∈ ip, Char.isDigit a = true) :
    specDigitsLeft (ip ++ '.' :: fp) = ip.length := by
  unfold specDigitsLeft
  rw [takeWhile_digits_append hip]
  exact List.countP_eq_length.mpr hip

lemma specDigitsRight_shape {ip fp : List Char} (hip : ∀ a ∈ ip, Char.isDigit a = true)
    (hfp : ∀ a ∈ fp, Char.isDigit a = true) :
    specDigitsRight (ip ++ '.' :: fp) = fp.length := by
  unfold specDigitsRight
  rw [dropWhile_digits_append hip]
  exact List.countP_eq_length.mpr hfp

lemma specMaxDigitsLeft_cons_dec (s : String) (rest : List PyVal) :
    specMaxDigitsLeft (PyVal.pdec s :: rest) =
      max (specDigitsLeft s.data) (specMaxDigitsLeft rest) := rfl

lemma specMaxDigitsRight_cons_dec (s : String) (rest : List PyVal) :
    specMaxDigitsRight (PyVal.pdec s :: rest) =
      max (specDigitsRight s.data) (specMaxDigitsRight rest) := rfl

lemma decScan_shape : ∀ (vals : List PyVal),
    (∀ v ∈ vals, canonicalDecimalString v = true) →
    ∀ r0 l0 : Int, 0 ≤ r0 → 0 ≤ l0 →
      vals.foldl decScanStep (r0, l0) =
        (max r0 (specMaxDigitsRight vals : Int), max l0 (specMaxDigitsLeft vals : Int)) := by
  intro vals
  induction vals with
  | nil =>
    intro _ r0 l0 hr hl
    unfold specMaxDigitsRight specMaxDigitsLeft
    simp only [List.foldl_nil, Nat.cast_zero]
    rw [Prod.mk.injEq]
    constructor <;> omega
  | cons v rest ih =>
    intro h r0 l0 hr hl
    obtain ⟨ip, fp, hv, hip0, hipd, hfpd⟩ := canonicalDecimalString_spec (h v (by simp))
    subst hv
    rw [List.foldl_cons]
    have hstep : decScanStep (r0, l0) (PyVal.pdec (String.mk (ip ++ '.' :: fp))) =
        (max r0 (fp.length : Int), max l0 (ip.length : Int)) := by
      show (max r0 (pyFind (ip ++ '.' :: fp).reverse '.'),
        max l0 (pyFind (ip ++ '.' :: fp) '.')) = _
      rw [pyFind_shape_right hfpd, pyFind_shape_left hipd]
    rw [hstep,
      ih (fun x hx => h x (by simp [hx])) _ _
        (le_trans hr (le_max_left _ _)) (le_trans hl (le_max_left _ _)),
      specMaxDigitsRight_cons_dec, specMaxDigitsLeft_cons_dec,
      show (String.mk (ip ++ '.' :: fp)).data = ip ++ '.' :: fp from rfl,
      specDigitsRight_shape hipd hfpd, specDigitsLeft_shape hipd]
    rw [Prod.mk.injEq]
    constructor <;> (push_cast; omega)

lemma toString_intCast (n : Nat) : toString ((n : Nat) : Int) = toString n := rfl

lemma decTypeLabel_shape_eq {vals : List PyVal} (hne : vals ≠ [])
    (h : ∀ v ∈ vals, canonicalDecimalString v = true) :
    decTypeLabel vals =
      "DECIMAL(" ++ toString (specMaxDigitsLeft vals + (specMaxDigitsRight vals + 1)) ++
        ", " ++ toString (specMaxDigitsRight vals + 1) ++ ")" := by
  have hscan : decScan vals =
      (max 0 (specMaxDigitsRight vals : Int), max 1 (specMaxDigitsLeft vals : Int)) := by
    unfold decScan
    exact decScan_shape vals h 0 1 (by omega) (by omega)
  have hL1 : 1 ≤ specMaxDigitsLeft vals := by
    cases vals with
    | nil => exact absurd rfl hne
    | cons v rest =>
      obtain ⟨ip, fp, hv, hip0, hipd, _⟩ := canonicalDecimalString_spec (h v (by simp))
      subst hv
      rw [specMaxDigitsLeft_cons_dec,
        show (String.mk (ip ++ '.' :: fp)).data = ip ++ '.' :: fp from rfl,
        specDigitsLeft_shape hipd]
      have hip1 : 1 ≤ ip.length := by
        cases ip with
        | nil => exact absurd rfl hip0
        | cons _ _ => simp
      omega
  have h1 : max (1 : Int) (specMaxDigitsLeft vals : Int) = (specMaxDigitsLeft vals : Int) := by
    omega
  have h2 : max (0 : Int) (specMaxDigitsRight vals : Int) = (specMaxDigitsRight vals : Int) := by
    omega
  have h3 : (specMaxDigitsLeft vals : Int) + ((specMaxDigitsRight vals : Int) + 1) =
      ((specMaxDigitsLeft vals + (specMaxDigitsRight vals + 1) : Nat) : Int) := by
    push_cast
    ring
  have h4 : (specMaxDigitsRight vals : Int) + 1 =
      ((specMaxDigitsRight vals + 1 : Nat) : Int) := by
    push_cast
    ring
  unfold decTypeLabel
  rw [hscan]
  dsimp only
  rw [h1, h2, h3, h4, toString_intCast, toString_intCast]

/-- C3 counterexample: on decimal values whose canonical strings hold no
decimal point, `str.find` returns `-1`, so the scan keeps its initial
values `to_left = 1`, `to_right = 0` and the code emits `DECIMAL(2, 1)`,
while the claimed digit-count formula gives `DECIMAL(4, 1)`. -/
theorem C3_counterexample :
    unify_datatype [PyVal.pdec "123", PyVal.pdec "456"] = Except.ok "DECIMAL(2, 1)" ∧
    specMaxDigitsLeft [PyVal.pdec "123", PyVal.pdec "456"] = 3 ∧
    specMaxDigitsRight [PyVal.pdec "123", PyVal.pdec "456"] = 0 ∧
    ("DECIMAL(2, 1)" : String) ≠
      "DECIMAL(" ++ toString (3 + (0 + 1)) ++ ", " ++ toString (0 + 1) ++ ")" :=
  ⟨rfl, rfl, rfl, by decide⟩

/-- C3 amended: for a nonempty column of decimals whose canonical strings
all have the unsigned pointed form `digits.digits`, the unifier returns
`DECIMAL(t, s)` with `s` the maximum digit count right of the point plus
one and `t` the maximum digit count left of the point plus `s`. -/
theorem C3_decimal_sizing (vals : List PyVal) (hne : vals ≠ [])
    (h : ∀ v ∈ vals, canonicalDecimalString v = true) :
    unify_datatype vals =
      Except.ok ("DECIMAL(" ++
        toString (specMaxDigitsLeft vals + (specMaxDigitsRight vals + 1)) ++ ", " ++
        toString (specMaxDigitsRight vals + 1) ++ ")") := by
  have hdec : vals.all isDecimal = true := by
    rw [List.all_eq_true]
    intro v hv
    obtain ⟨ip, fp, hv2, _⟩ := canonicalDecimalString_spec (h v hv)
    subst hv2
    rfl
  have hfl : vals.all isFloat = false := by
    cases vals with
    | nil => exact absurd rfl hne
    | cons v rest =>
      obtain ⟨ip, fp, hv2, _⟩ := canonicalDecimalString_spec (h v (by simp))
      subst hv2
      exact all_eq_false_of_mem (List.mem_cons_self _ _) rfl
  have hint : vals.all isInt = false := by
    cases vals with
    | nil => exact absurd rfl hne
    | cons v rest =>
      obtain ⟨ip, fp, hv2, _⟩ := canonicalDecimalString_spec (h v (by simp))
      subst hv2
      exact all_eq_false_of_mem (List.mem_cons_self _ _) rfl
  unfold unify_datatype
  rw [hfl, hint, hdec]
  simp [decTypeLabel_shape_eq hne h]

/-- Witness for C3 on the decimal column of the notebook's `data1`:
maximum 1 digit left, 24 digits right, so `DECIMAL(26, 25)`. -/
theorem C3_decimal_sizing_witness :
    unify_datatype [PyVal.pdec "1.15573", PyVal.pdec "1.155727349790921717935726",
      PyVal.pdec "1.0"] = Except.ok "DECIMAL(26, 25)" := by
  have h := C3_decimal_sizing
    [PyVal.pdec "1.15573", PyVal.pdec "1.155727349790921717935726", PyVal.pdec "1.0"]
    (by simp) (by decide)
  rw [h]
  rfl

/-! ### C9: the output format -/

lemma except_bind_ok {α β : Type} (a : α) (f : α → Except PyError β) :
    Except.bind (Except.ok a) f = f a := rfl

lemma buildTypes_cons_inv {dataset : List PyObj} {n : Nat} {col : String}
    {rest : List String} {tys : List (String × String)}
    (h : buildTypes dataset n (col :: rest) = Except.ok tys) :
    ∃ cv t ts, gatherColumn dataset n = Except.ok cv ∧
      unify_datatype cv = Except.ok t ∧
      buildTypes dataset (n + 1) rest = Except.ok ts ∧
      tys = (col, t) :: ts := by
  unfold buildTypes at h
  rcases hg : gatherColumn dataset n with e | cv
  · rw [hg] at h
    simp [Except.bind] at h
  · rw [hg] at h
    simp only [except_bind_ok] at h
    rcases hu : unify_datatype cv with e | t
    · rw [hu] at h
      simp [Except.bind] at h
    · rw [hu] at h
      simp only [except_bind_ok] at h
      by_cases ht : t = ""
      · rw [if_pos ht] at h
        simp at h
      · rw [if_neg ht] at h
        rcases hbt : buildTypes dataset (n + 1) rest with e | ts
        · rw [hbt] at h
          simp [Except.bind] at h
        · rw [hbt] at h
          simp only [except_bind_ok] at h
          injection h with h2
          exact ⟨cv, t, ts, rfl, hu, rfl, h2.symm⟩

lemma buildTypes_fst {dataset : List PyObj} :
    ∀ {fields : List String} {n : Nat} {tys : List (String × String)},
      buildTypes dataset n fields = Except.ok tys → tys.map Prod.fst = fields := by
  intro fields
  induction fields with
  | nil =>
    intro n tys h
    unfold buildTypes at h
    cases h
    rfl
  | cons col rest ih =>
    intro n tys h
    obtain ⟨cv, t, ts, hg, hu, hbt, rfl⟩ := buildTypes_cons_inv h
    simpa using ih hbt

lemma buildTypes_ok_shape {dataset : List PyObj} :
    ∀ {fields : List String} {n : Nat} {tys : List (String × String)},
      buildTypes dataset n fields = Except.ok tys →
      ∀ p ∈ tys, p.2 ≠ "" ∧ p.2.data.getLast? ≠ some ',' := by
  intro fields
  induction fields with
  | nil =>
    intro n tys h
    unfold buildTypes at h
    cases h
    intro p hp
    simp at hp
  | cons col rest ih =>
    intro n tys h
    obtain ⟨cv, t, ts, hg, hu, hbt, rfl⟩ := buildTypes_cons_inv h
    intro p hp
    rcases List.mem_cons.mp hp with rfl | hmem
    · exact unify_ok_shape hu
    · exact ih hbt p hmem

lemma dropWhile_comma_of_getLast {l : List Char} (h : l.getLast? ≠ some ',') :
    l.reverse.dropWhile (fun c => c == ',') = l.reverse := by
  cases hr : l.reverse with
  | nil => rfl
  | cons a t =>
    have ha : a ≠ ',' := by
      intro e
      apply h
      rw [← List.head?_reverse, hr, e]
      rfl
    rw [List.dropWhile_cons, if_neg (by simp [ha])]

lemma rstripComma_eq_of_getLast {s : String} (h : s.data.getLast? ≠ some ',') :
    rstripComma s = s := by
  unfold rstripComma
  rw [dropWhile_comma_of_getLast h, List.reverse_reverse]

lemma rstripComma_append_comma (x : String) (h : x.data.getLast? ≠ some ',') :
    rstripComma (x ++ ",") = x := by
  unfold rstripComma
  have hd : (x ++ ",").data = x.data ++ [','] := by
    rw [String.data_append]
  rw [hd, show (x.data ++ [',']).reverse = ',' :: x.data.reverse by simp,
    List.dropWhile_cons, if_pos (by simp), dropWhile_comma_of_getLast h,
    List.reverse_reverse]

lemma stripLastComma_concat : ∀ (l : List String) (z : String),
    stripLastComma (l ++ [z]) = l ++ [rstripComma z] := by
  intro l z
  induction l with
  | nil => rfl
  | cons x rest ih =>
    cases rest with
    | nil => rfl
    | cons y t =>
      show x :: stripLastComma ((y :: t) ++ [z]) = x :: ((y :: t) ++ [rstripComma z])
      rw [ih]

lemma header_no_comma (name : String) :
    ("CREATE TABLE " ++ name ++ " (").data.getLast? ≠ some ',' := by
  rw [String.data_append, List.getLast?_append]
  intro hcontra
  rw [show (" (".data.getLast?) = some '(' from rfl] at hcontra
  simp [Option.or] at hcontra

lemma line_no_comma (c t : String) (h : t.data.getLast? ≠ some ',') :
    ("    " ++ c ++ " " ++ t).data.getLast? ≠ some ',' := by
  rw [String.data_append, List.getLast?_append]
  cases hl : t.data.getLast? with
  | none =>
    rw [show (Option.none.or ((("    " ++ c ++ " ").data).getLast?)) =
        (("    " ++ c ++ " ").data).getLast? from rfl]
    rw [String.data_append, List.getLast?_append]
    rw [show (" ".data.getLast?) = some ' ' from rfl]
    rw [show ((some ' ').or ((("    " ++ c).data).getLast?)) = some ' ' from rfl]
    simp
  | some a =>
    rw [show ((some a).or ((("    " ++ c ++ " ").data).getLast?)) = some a from rfl]
    intro hcontra
    exact h (hl.trans hcontra)

lemma renderSQL_eq_spec (name : String) (tys : List (String × String))
    (h : ∀ p ∈ tys, p.2.data.getLast? ≠ some ',') :
    renderSQL name tys = specRenderedOutput name tys := by
  rcases List.eq_nil_or_concat tys with rfl | ⟨l, p, rfl⟩
  · show String.intercalate "\n"
      (stripLastComma ["CREATE TABLE " ++ name ++ " ("] ++ [");"]) = _
    rw [show stripLastComma ["CREATE TABLE " ++ name ++ " ("] =
        [rstripComma ("CREATE TABLE " ++ name ++ " (")] from rfl]
    rw [rstripComma_eq_of_getLast (header_no_comma name)]
    rfl
  · simp only [List.concat_eq_append] at h ⊢
    have hp := h p (by simp)
    unfold renderSQL
    simp only [List.map_append, List.map_cons, List.map_nil]
    rw [← List.cons_append]
    rw [stripLastComma_concat]
    rw [show ("    " ++ p.1 ++ " " ++ p.2 ++ ",") =
        (("    " ++ p.1 ++ " " ++ p.2) ++ ",") from rfl]
    rw [rstripComma_append_comma _ (line_no_comma p.1 p.2 hp)]
    unfold specRenderedOutput specColumnLines
    rw [List.dropLast_concat, List.getLast?_concat]
    simp

/-- C9: for every batch that passes the three validations and whose
per-column unification succeeds, the inferrer returns exactly the claimed
grammar: a `CREATE TABLE <name> (` line with the first record's class
name, one `    col typ,` line per column with the comma absent from the
last line, a closing `);` line, and the column order equal to the first
record's declared field order. -/
theorem C9_output_format (first : PyObj) (rest : List PyObj)
    (tys : List (String × String))
    (hnt : (first :: rest).all isNamedTuple = true)
    (hlen : 2 ≤ (first :: rest).length)
    (huniq : ((first :: rest).map clsNameOf).dedup.length = 1)
    (hbt : buildTypes (first :: rest) 0 (fieldsOf first) = Except.ok tys) :
    infer_schema_nt (first :: rest) =
      Except.ok (specRenderedOutput (clsNameOf first) tys) ∧
    tys.map Prod.fst = fieldsOf first := by
  refine ⟨?_, buildTypes_fst hbt⟩
  unfold infer_schema_nt
  rw [if_neg (by omega)]
  rw [hnt]
  rw [if_neg (by simp)]
  rw [if_neg (fun hcontra => hcontra huniq)]
  show Except.bind (buildTypes (first :: rest) 0 (fieldsOf first))
      (fun types => Except.ok (renderSQL (clsNameOf first) types)) = _
  rw [hbt]
  show Except.ok (renderSQL (clsNameOf first) tys) = _
  rw [renderSQL_eq_spec _ _ (fun p hp => (buildTypes_ok_shape hbt p hp).2)]

/-- Witness for C9 on the notebook's `data1` batch. -/
theorem C9_output_format_witness :
    infer_schema_nt data1 = Except.ok (specRenderedOutput "Numbers1"
      [("a", "DOUBLE PRECISION"), ("b", "DECIMAL(26, 25)"), ("c", "BIGINT"),
       ("d", "SMALLINT"), ("e", "DOUBLE PRECISION")]) ∧
    ([("a", "DOUBLE PRECISION"), ("b", "DECIMAL(26, 25)"), ("c", "BIGINT"),
      ("d", "SMALLINT"), ("e", "DOUBLE PRECISION")].map Prod.fst) =
      ["a", "b", "c", "d", "e"] :=
  C9_output_format
    (PyObj.nt ⟨"Numbers1", ["a", "b", "c", "d", "e"],
      [PyVal.pfloat "1.23", PyVal.pdec "1.15573", PyVal.pint 1000000000000,
       PyVal.pint 2, PyVal.pfrac 22 7]⟩)
    [PyObj.nt ⟨"Numbers1", ["a", "b", "c", "d", "e"],
      [PyVal.pfloat "4.56", PyVal.pdec "1.155727349790921717935726", PyVal.pint (-22),
       PyVal.pint 5, PyVal.pfrac 1 3]⟩,
     PyObj.nt ⟨"Numbers1", ["a", "b", "c", "d", "e"],
      [PyVal.pfloat "7.89", PyVal.pdec "1.0", PyVal.pint 56, PyVal.pint 9,
       PyVal.pfrac 5 1]⟩]
    _ rfl (by decide) rfl buildTypes_data1

/-! ### C10: same class name, distinct shapes -/

/-- C10: two namedtuples of distinct shapes but equal class name pass all
three validations (in particular no `MixedRecordTypes` failure), the field
list is taken from the first record, and gathering the second column from
the shorter later record raises an `IndexError`, which is none of the four
defined validation failures. -/
theorem C10_same_name_distinct_shape :
    infer_schema_nt [PyObj.nt ⟨"Point", ["a", "b"], [PyVal.pfloat "1.0", PyVal.pfloat "2.0"]⟩,
                     PyObj.nt ⟨"Point", ["a"], [PyVal.pfloat "3.0"]⟩] =
      Except.error PyError.indexError ∧
    isValidationError PyError.indexError = false ∧
    (["a", "b"] : List String) ≠ ["a"] :=
  ⟨rfl, rfl, by decide⟩

end SchemaInfer
